import Mathlib

/-!
Verification development for the klock-core coordination kernel.

This file shallowly embeds the Rust sources of `klock-core` in Lean 4:
`types/primitives.rs`, `types/lease.rs`, `conflict.rs`, `scheduler.rs`,
`state.rs`, `infrastructure_in_memory.rs`, `infrastructure_sqlite.rs`
and `client.rs`.  Machine integers (`u64`, `usize`) are modelled as `Nat`
(the embedded executions are those where Rust debug-mode overflow checks
do not fire), hash maps and SQL tables keyed by a primary key are
modelled as association lists, and wall-clock reads (`now_ms`) become an
explicit `now` parameter.  Strings produced with `format!` are rebuilt
with explicit concatenation; Rust `Display` of `u64` is decimal, matching
`toString` on `Nat`, and derived `Debug` output is reproduced verbatim.
-/

namespace Klock

/-- `Predicate` from `types/primitives.rs`: the six SPO verbs. -/
inductive Predicate
  | Provides
  | Consumes
  | Mutates
  | Deletes
  | DependsOn
  | Renames
deriving DecidableEq

/-- `Predicate::to_index` from `types/primitives.rs`. -/
def Predicate.to_index : Predicate → Nat
  | .Provides => 0
  | .Consumes => 1
  | .Mutates => 2
  | .Deletes => 3
  | .DependsOn => 4
  | .Renames => 5

/-- Rust derived `Debug` rendering of a `Predicate` (variant name). -/
def Predicate.debugFmt : Predicate → String
  | .Provides => "Provides"
  | .Consumes => "Consumes"
  | .Mutates => "Mutates"
  | .Deletes => "Deletes"
  | .DependsOn => "DependsOn"
  | .Renames => "Renames"

/-- `Confidence` from `types/primitives.rs`. -/
inductive Confidence
  | High
  | Medium
  | Low
deriving DecidableEq

/-- `ResourceType` from `types/primitives.rs`. -/
inductive ResourceType
  | File
  | Symbol
  | ApiEndpoint
  | DatabaseTable
  | ConfigKey
deriving DecidableEq

/-- `Display for ResourceType` from `types/primitives.rs`. -/
def ResourceType.display : ResourceType → String
  | .File => "FILE"
  | .Symbol => "SYMBOL"
  | .ApiEndpoint => "API_ENDPOINT"
  | .DatabaseTable => "DATABASE_TABLE"
  | .ConfigKey => "CONFIG_KEY"

/-- Rust derived `Debug` rendering of a `ResourceType` (variant name). -/
def ResourceType.debugFmt : ResourceType → String
  | .File => "File"
  | .Symbol => "Symbol"
  | .ApiEndpoint => "ApiEndpoint"
  | .DatabaseTable => "DatabaseTable"
  | .ConfigKey => "ConfigKey"

/-- `ResourceRef` from `types/primitives.rs`. -/
structure ResourceRef where
  resource_type : ResourceType
  path : String
deriving DecidableEq

/-- `ResourceRef::key`: the canonical `TYPE:path` string. -/
def ResourceRef.key (r : ResourceRef) : String :=
  r.resource_type.display ++ ":" ++ r.path

/-- Rust `Debug` escaping of one character inside a quoted string literal
(ASCII printable characters map to themselves). -/
def rustCharEscape (c : Char) : String :=
  if c = '\"' then "\\\""
  else if c = '\\' then "\\\\"
  else if c = '\n' then "\\n"
  else if c = '\t' then "\\t"
  else if c = '\r' then "\\r"
  else String.singleton c

/-- Rust `Debug` rendering of a `String` (quoted, escaped). -/
def rustStrDebug (s : String) : String :=
  "\"" ++ String.join (s.toList.map rustCharEscape) ++ "\""

/-- Rust derived `Debug` rendering of a `ResourceRef`. -/
def ResourceRef.debugFmt (r : ResourceRef) : String :=
  "ResourceRef \x7b resource_type: " ++ r.resource_type.debugFmt
    ++ ", path: " ++ rustStrDebug r.path ++ " \x7d"

/-- `SPOTriple` from `types/primitives.rs`. -/
structure SPOTriple where
  id : String
  subject : String
  predicate : Predicate
  object : ResourceRef
  timestamp : Nat
  confidence : Confidence
  session_id : String
deriving DecidableEq

/-- `LeaseState` from `types/lease.rs`. -/
inductive LeaseState
  | Active
  | Expired
  | Released
  | Revoked
deriving DecidableEq

/-- `Lease` from `types/lease.rs`. -/
structure Lease where
  id : String
  agent_id : String
  session_id : String
  resource : ResourceRef
  predicate : Predicate
  state : LeaseState
  acquired_at : Nat
  ttl : Nat
  expires_at : Nat
  last_heartbeat : Nat
deriving DecidableEq

/-- `Lease::new` from `types/lease.rs`. -/
def Lease.new (id agent_id session_id : String) (resource : ResourceRef)
    (predicate : Predicate) (ttl now : Nat) : Lease :=
  { id := id
    agent_id := agent_id
    session_id := session_id
    resource := resource
    predicate := predicate
    state := .Active
    acquired_at := now
    ttl := ttl
    expires_at := now + ttl
    last_heartbeat := now }

/-- `LeaseFailureReason` from `types/lease.rs`. -/
inductive LeaseFailureReason
  | Conflict
  | Wait
  | Die
  | ResourceLocked
  | SessionExpired
deriving DecidableEq

/-- `LeaseResult` from `types/lease.rs`. -/
inductive LeaseResult
  | Success (lease : Lease)
  | Failure (reason : LeaseFailureReason) (existing_lease : Option Lease)
      (wait_time : Option Nat)
deriving DecidableEq

/-- `ConflictResult` from `conflict.rs`. -/
inductive ConflictResult
  | Ok
  | Conflict (reason : String)
deriving DecidableEq

namespace ConflictEngine

/-- The constant 6x6 compatibility matrix from `conflict.rs`
(rows: held predicate, columns: requesting predicate, `true` = compatible). -/
def MATRIX : List (List Bool) :=
  [ [false, true,  false, false, true,  false],
    [true,  true,  false, false, true,  false],
    [false, false, false, false, false, false],
    [false, false, false, false, false, false],
    [true,  true,  false, false, true,  false],
    [false, false, false, false, false, false] ]

/-- `ConflictEngine::check_pair`: `true` means the pair conflicts
(the matrix cell is `false`). -/
def check_pair (held requesting : Predicate) : Bool :=
  !((MATRIX.getD held.to_index []).getD requesting.to_index false)

/-- The reason string built by `ConflictEngine::check` on a conflict. -/
def checkReason (newT existing : SPOTriple) : String :=
  "Agent " ++ newT.subject ++ "\x27s " ++ newT.predicate.debugFmt
    ++ " operation conflicts with Agent " ++ existing.subject
    ++ "\x27s held " ++ existing.predicate.debugFmt
    ++ " operation on " ++ newT.object.debugFmt

/-- The loop body of `ConflictEngine::check` over the existing triples. -/
def checkLoop (newT : SPOTriple) (key : String) :
    List SPOTriple → ConflictResult
  | [] => .Ok
  | e :: rest =>
    if e.object.key ≠ key then checkLoop newT key rest
    else if e.subject = newT.subject ∧ e.session_id = newT.session_id then
      checkLoop newT key rest
    else if check_pair e.predicate newT.predicate then
      .Conflict (checkReason newT e)
    else checkLoop newT key rest

/-- `ConflictEngine::check` from `conflict.rs`. -/
def check (newT : SPOTriple) (existing : List SPOTriple) : ConflictResult :=
  checkLoop newT newT.object.key existing

end ConflictEngine

/-- `VerdictStatus` from `scheduler.rs`. -/
inductive VerdictStatus
  | Granted
  | Wait
  | Die
deriving DecidableEq

/-- `SchedulerVerdict` from `scheduler.rs`. -/
structure SchedulerVerdict where
  status : VerdictStatus
  reason : Option String
  held_by : Option String
  retry_after_ms : Option Nat
deriving DecidableEq

namespace WaitDieScheduler

/-- The `Granted` verdict returned by `WaitDieScheduler::decide`. -/
def grantedVerdict : SchedulerVerdict :=
  { status := .Granted, reason := none, held_by := none, retry_after_ms := none }

/-- The filter condition of step 1 of `WaitDieScheduler::decide`:
same resource key, different agent, conflicting predicates. -/
def isConflicting (key reqAgent : String) (reqPred : Predicate)
    (l : Lease) : Bool :=
  l.resource.key == key && !(l.agent_id == reqAgent)
    && ConflictEngine.check_pair l.predicate reqPred

/-- Step 1 of `WaitDieScheduler::decide`: the conflicting holders, in
`active_leases` order. -/
def conflictingHolders (reqAgent : String) (reqPred : Predicate)
    (resource : ResourceRef) (active : List Lease) : List Lease :=
  active.filter (isConflicting resource.key reqAgent reqPred)

/-- The `Wait` verdict built in step 3 of `WaitDieScheduler::decide`. -/
def waitVerdict (reqPri holderPri : Nat) (holderAgent : String) :
    SchedulerVerdict :=
  { status := .Wait
    reason := some ("Senior (" ++ toString reqPri ++ ") waiting for Junior ("
      ++ toString holderPri ++ ") to complete.")
    held_by := some holderAgent
    retry_after_ms := none }

/-- The `Die` verdict built in step 3 of `WaitDieScheduler::decide`. -/
def dieVerdict (reqPri holderPri : Nat) (holderAgent : String) :
    SchedulerVerdict :=
  { status := .Die
    reason := some ("Conflict: Senior (" ++ toString holderPri
      ++ ") vs Junior (" ++ toString reqPri ++ "). Junior must DIE.")
    held_by := some holderAgent
    retry_after_ms := some 1000 }

/-- The `Die` verdict returned when the requester has no registered
priority (step 2 of `WaitDieScheduler::decide`). -/
def missingPriorityVerdict : SchedulerVerdict :=
  { status := .Die
    reason := some "Missing agent priority. Cannot ensure deadlock safety."
    held_by := none
    retry_after_ms := some 1000 }

/-- Step 3 of `WaitDieScheduler::decide`: walk the conflicting holders,
skipping holders with no registered priority; the first prioritised
holder decides Wait or Die. -/
def waitDieLoop (reqPri : Nat) (priorities : List (String × Nat)) :
    List Lease → SchedulerVerdict
  | [] => grantedVerdict
  | h :: rest =>
    match priorities.lookup h.agent_id with
    | none => waitDieLoop reqPri priorities rest
    | some hp =>
      if reqPri < hp then waitVerdict reqPri hp h.agent_id
      else dieVerdict reqPri hp h.agent_id

/-- `WaitDieScheduler::decide` from `scheduler.rs`. -/
def decide (reqAgent : String) (reqPred : Predicate) (resource : ResourceRef)
    (active_leases : List Lease) (priorities : List (String × Nat)) :
    SchedulerVerdict :=
  let conflicting := conflictingHolders reqAgent reqPred resource active_leases
  if conflicting.isEmpty then grantedVerdict
  else
    match priorities.lookup reqAgent with
    | none => missingPriorityVerdict
    | some rp => waitDieLoop rp priorities conflicting

end WaitDieScheduler

/-- `KernelVerdictStatus` from `state.rs`. -/
inductive KernelVerdictStatus
  | Granted
  | Wait
  | Die
deriving DecidableEq

/-- `KernelVerdict` from `state.rs`. -/
structure KernelVerdict where
  agent_id : String
  session_id : String
  status : KernelVerdictStatus
  reason : Option String
  held_by : Option String
  conflicts : List String
  retry_after_ms : Option Nat
deriving DecidableEq

/-- `StateSnapshot` from `state.rs`. -/
structure StateSnapshot where
  active_leases : List Lease
  active_intents : List SPOTriple
  priorities : List (String × Nat)
deriving DecidableEq

/-- `IntentManifest` from `state.rs`. -/
structure IntentManifest where
  session_id : String
  agent_id : String
  intents : List SPOTriple
deriving DecidableEq

namespace KlockKernel

/-- The mutable accumulator of `KlockKernel::execute`
(`conflicts`, `worst_status`, `return_reason`, `return_held_by`,
`return_retry`). -/
structure ExecAcc where
  conflicts : List String
  worst : KernelVerdictStatus
  reason : Option String
  held_by : Option String
  retry : Option Nat
deriving DecidableEq

/-- The initial accumulator of `KlockKernel::execute`. -/
def initAcc : ExecAcc :=
  { conflicts := [], worst := .Granted, reason := none, held_by := none,
    retry := none }

/-- The scheduler call made for one intent inside `KlockKernel::execute`
(identical in both branches of the loop body). -/
def intentVerdict (state : StateSnapshot) (agent : String)
    (intent : SPOTriple) : SchedulerVerdict :=
  WaitDieScheduler.decide agent intent.predicate intent.object
    state.active_leases state.priorities

/-- The `"Conflict with active lease on {:?}"` entry pushed by
`KlockKernel::execute` when an intent conflicts only with leases. -/
def leaseConflictEntry (intent : SPOTriple) : String :=
  "Conflict with active lease on " ++ intent.object.debugFmt

/-- One iteration of the loop body of `KlockKernel::execute`. -/
def step (state : StateSnapshot) (agent : String) (acc : ExecAcc)
    (intent : SPOTriple) : ExecAcc :=
  match ConflictEngine.check intent state.active_intents with
  | .Conflict r =>
    let sv := intentVerdict state agent intent
    let acc1 : ExecAcc := { acc with conflicts := acc.conflicts ++ [r] }
    match sv.status with
    | .Wait =>
      if acc1.worst ≠ .Die then
        { acc1 with worst := .Wait, reason := sv.reason, held_by := sv.held_by }
      else acc1
    | .Die =>
      { acc1 with
          worst := .Die
          reason := sv.reason
          held_by := sv.held_by
          retry := sv.retry_after_ms }
    | .Granted => acc1
  | .Ok =>
    let sv := intentVerdict state agent intent
    if sv.status ≠ .Granted then
      let acc1 : ExecAcc :=
        { acc with conflicts := acc.conflicts ++ [leaseConflictEntry intent] }
      match sv.status with
      | .Wait =>
        if acc1.worst ≠ .Die then
          { acc1 with
              worst := .Wait
              reason := sv.reason
              held_by := sv.held_by }
        else acc1
      | .Die =>
        { acc1 with
            worst := .Die
            reason := sv.reason
            held_by := sv.held_by
            retry := sv.retry_after_ms }
      | .Granted => acc1
    else acc

/-- `KlockKernel::execute` from `state.rs`. -/
def execute (state : StateSnapshot) (manifest : IntentManifest) :
    KernelVerdict :=
  let acc := manifest.intents.foldl (step state manifest.agent_id) initAcc
  { agent_id := manifest.agent_id
    session_id := manifest.session_id
    status := acc.worst
    reason := acc.reason
    held_by := acc.held_by
    conflicts := acc.conflicts
    retry_after_ms := acc.retry }

/-- Modelled from the spec: one reduction step exactly as the claim words
it — `Die` overwrites status, reason, held_by and retry; `Wait` (when the
running status is not `Die`) overwrites status, reason and held_by and
leaves retry unset; the conflicts list collects every conflict-engine
reason plus a lease-conflict entry for each intent with no intent-level
conflict but a non-`Granted` scheduler verdict. -/
def claimStep (state : StateSnapshot) (agent : String) (acc : ExecAcc)
    (intent : SPOTriple) : ExecAcc :=
  let sv := intentVerdict state agent intent
  let conflicts :=
    match ConflictEngine.check intent state.active_intents with
    | .Conflict r => acc.conflicts ++ [r]
    | .Ok =>
      if sv.status ≠ .Granted then acc.conflicts ++ [leaseConflictEntry intent]
      else acc.conflicts
  match sv.status with
  | .Die =>
    { conflicts := conflicts, worst := .Die, reason := sv.reason,
      held_by := sv.held_by, retry := sv.retry_after_ms }
  | .Wait =>
    if acc.worst ≠ .Die then
      { conflicts := conflicts, worst := .Wait, reason := sv.reason,
        held_by := sv.held_by, retry := none }
    else { acc with conflicts := conflicts }
  | .Granted => { acc with conflicts := conflicts }

/-- Modelled from the spec: the whole reduction described by the claim
(`Die` strictly dominating `Wait` dominating `Granted`, starting from
`Granted` with no conflicts). -/
def claimExecute (state : StateSnapshot) (manifest : IntentManifest) :
    KernelVerdict :=
  let acc := manifest.intents.foldl (claimStep state manifest.agent_id) initAcc
  { agent_id := manifest.agent_id
    session_id := manifest.session_id
    status := acc.worst
    reason := acc.reason
    held_by := acc.held_by
    conflicts := acc.conflicts
    retry_after_ms := acc.retry }

end KlockKernel

/-- Replace-or-append insertion on an association list: the model of
`HashMap::insert` (and of an SQL upsert keyed by a primary key). -/
def assocInsert {β : Type} (m : List (String × β)) (k : String) (v : β) :
    List (String × β) :=
  if (m.lookup k).isSome then
    m.map (fun p => if p.1 == k then (k, v) else p)
  else m ++ [(k, v)]

/-- The per-lease update of `evict_expired`: an `Active` lease whose
`expires_at` is strictly before `now` becomes `Expired`. -/
def expireLease (now : Nat) (l : Lease) : Lease :=
  if l.state == .Active && l.expires_at < now then { l with state := .Expired }
  else l

/-- `InMemoryLeaseStore` from `infrastructure_in_memory.rs`; the two hash
maps become association lists. -/
structure InMemoryLeaseStore where
  leases : List (String × Lease)
  priorities : List (String × Nat)
deriving DecidableEq

namespace InMemoryLeaseStore

/-- `InMemoryLeaseStore::new`. -/
def new : InMemoryLeaseStore := { leases := [], priorities := [] }

/-- `InMemoryLeaseStore::register_agent_priority`. -/
def register_agent_priority (s : InMemoryLeaseStore) (agent : String)
    (priority : Nat) : InMemoryLeaseStore :=
  { s with priorities := assocInsert s.priorities agent priority }

/-- `InMemoryLeaseStore::get_active_leases`. -/
def get_active_leases (s : InMemoryLeaseStore) : List Lease :=
  (s.leases.map Prod.snd).filter (fun l => l.state == .Active)

/-- `InMemoryLeaseStore::evict_expired`: returns the updated store and
the number of leases transitioned to `Expired`. -/
def evict_expired (s : InMemoryLeaseStore) (now : Nat) :
    InMemoryLeaseStore × Nat :=
  ({ s with leases := s.leases.map (fun p => (p.1, expireLease now p.2)) },
   (s.leases.map Prod.snd).countP
     (fun l => l.state == .Active && l.expires_at < now))

/-- `InMemoryLeaseStore::release`: sets any found lease to `Released`
with no check of its current state (the `state == Active` guard present
in the SQLite twin is absent here). -/
def release (s : InMemoryLeaseStore) (lease_id : String) :
    InMemoryLeaseStore × Bool :=
  if (s.leases.lookup lease_id).isSome then
    let upd := s.leases.map (fun p =>
      if p.1 == lease_id then (p.1, { p.2 with state := .Released }) else p)
    ({ s with leases := upd }, true)
  else (s, false)

/-- `InMemoryLeaseStore::heartbeat`. -/
def heartbeat (s : InMemoryLeaseStore) (lease_id : String) (now : Nat) :
    InMemoryLeaseStore × Bool :=
  match s.leases.lookup lease_id with
  | some l =>
    if l.state == .Active then
      let upd := s.leases.map (fun p =>
        if p.1 == lease_id then
          (p.1, { p.2 with last_heartbeat := now, expires_at := now + p.2.ttl })
        else p)
      ({ s with leases := upd }, true)
    else (s, false)
  | none => (s, false)

/-- `InMemoryLeaseStore::acquire` from `infrastructure_in_memory.rs`. -/
def acquire (s : InMemoryLeaseStore) (agent_id session_id : String)
    (resource : ResourceRef) (predicate : Predicate) (ttl now : Nat) :
    InMemoryLeaseStore × LeaseResult :=
  let s1 := (s.evict_expired now).1
  let verdict := WaitDieScheduler.decide agent_id predicate resource
    s1.get_active_leases s1.priorities
  match verdict.status with
  | .Wait => (s1, .Failure .Wait none none)
  | .Die => (s1, .Failure .Die none verdict.retry_after_ms)
  | .Granted =>
    let lease_id := "lease_" ++ agent_id ++ "_" ++ toString now
    let lease := Lease.new lease_id agent_id session_id resource predicate
      ttl now
    ({ s1 with leases := assocInsert s1.leases lease_id lease },
     .Success lease)

end InMemoryLeaseStore

/-- `SqliteLeaseStore` from `infrastructure_sqlite.rs`; the `leases`
table, whose `id` column is the primary key, becomes an association list
keyed by `id`, and the preloaded priority map an association list. -/
structure SqliteLeaseStore where
  rows : List (String × Lease)
  priorities : List (String × Nat)
deriving DecidableEq

namespace SqliteLeaseStore

/-- `SqliteLeaseStore::get_active_leases`
(`SELECT ... WHERE state = Active`). -/
def get_active_leases (s : SqliteLeaseStore) : List Lease :=
  (s.rows.map Prod.snd).filter (fun l => l.state == .Active)

/-- `SqliteLeaseStore::evict_expired`
(`UPDATE ... SET state = Expired WHERE state = Active AND expires_at < now`,
returning the number of updated rows). -/
def evict_expired (s : SqliteLeaseStore) (now : Nat) :
    SqliteLeaseStore × Nat :=
  ({ s with rows := s.rows.map (fun p => (p.1, expireLease now p.2)) },
   (s.rows.map Prod.snd).countP
     (fun l => l.state == .Active && l.expires_at < now))

/-- `SqliteLeaseStore::release`
(`UPDATE ... SET state = Released WHERE id = ? AND state = Active`,
returning whether a row was updated). -/
def release (s : SqliteLeaseStore) (lease_id : String) :
    SqliteLeaseStore × Bool :=
  match s.rows.lookup lease_id with
  | some l =>
    if l.state == .Active then
      let upd := s.rows.map (fun p =>
        if p.1 == lease_id then (p.1, { p.2 with state := .Released }) else p)
      ({ s with rows := upd }, true)
    else (s, false)
  | none => (s, false)

/-- `SqliteLeaseStore::heartbeat`: select the `ttl` of the `Active` row
with this id, then update `last_heartbeat` and `expires_at` on it. -/
def heartbeat (s : SqliteLeaseStore) (lease_id : String) (now : Nat) :
    SqliteLeaseStore × Bool :=
  match s.rows.lookup lease_id with
  | some l =>
    if l.state == .Active then
      let upd := s.rows.map (fun p =>
        if p.1 == lease_id then
          (p.1, { p.2 with last_heartbeat := now, expires_at := now + l.ttl })
        else p)
      ({ s with rows := upd }, true)
    else (s, false)
  | none => (s, false)

/-- `SqliteLeaseStore::acquire` from `infrastructure_sqlite.rs`.  The
`INSERT` has its error swallowed by `.ok()`: when a row with the
synthesised primary key already exists the insert fails silently and the
table is left unchanged, while `Success` is still returned. -/
def acquire (s : SqliteLeaseStore) (agent_id session_id : String)
    (resource : ResourceRef) (predicate : Predicate) (ttl now : Nat) :
    SqliteLeaseStore × LeaseResult :=
  let s1 := (s.evict_expired now).1
  let verdict := WaitDieScheduler.decide agent_id predicate resource
    s1.get_active_leases s1.priorities
  match verdict.status with
  | .Wait => (s1, .Failure .Wait none none)
  | .Die => (s1, .Failure .Die none verdict.retry_after_ms)
  | .Granted =>
    let lease_id := "lease_" ++ agent_id ++ "_" ++ toString now
    let lease := Lease.new lease_id agent_id session_id resource predicate
      ttl now
    (if (s1.rows.lookup lease_id).isSome then s1
     else { s1 with rows := s1.rows ++ [(lease_id, lease)] },
     .Success lease)

end SqliteLeaseStore

/-- ASCII uppercasing of one character, as Rust `to_uppercase` acts on
ASCII input (the only portion relevant to the matched literals). -/
def asciiUpper (c : Char) : Char :=
  if 'a' ≤ c ∧ c ≤ 'z' then Char.ofNat (c.toNat - 32) else c

/-- The model of Rust `str::to_uppercase` (ASCII-faithful). -/
def rustToUpper (s : String) : String :=
  ⟨s.data.map asciiUpper⟩

/-- `parse_predicate` from `client.rs`. -/
def parse_predicate (s : String) : Predicate :=
  let u := rustToUpper s
  if u == "PROVIDES" then .Provides
  else if u == "CONSUMES" then .Consumes
  else if u == "MUTATES" then .Mutates
  else if u == "DELETES" then .Deletes
  else if u == "DEPENDS_ON" then .DependsOn
  else if u == "RENAMES" then .Renames
  else .Consumes

/-- `parse_resource_type` from `client.rs`. -/
def parse_resource_type (s : String) : ResourceType :=
  let u := rustToUpper s
  if u == "FILE" then .File
  else if u == "SYMBOL" then .Symbol
  else if u == "API_ENDPOINT" then .ApiEndpoint
  else if u == "DATABASE_TABLE" then .DatabaseTable
  else if u == "CONFIG_KEY" then .ConfigKey
  else .File

/-- `KlockClient` from `client.rs`, with its default in-memory store
(`KlockClient::new`). -/
structure KlockClient where
  store : InMemoryLeaseStore
  active_intents : List SPOTriple
  id_counter : Nat
deriving DecidableEq

namespace KlockClient

/-- `KlockClient::new`. -/
def new : KlockClient :=
  { store := InMemoryLeaseStore.new, active_intents := [], id_counter := 0 }

/-- `KlockClient::register_agent`. -/
def register_agent (c : KlockClient) (agent_id : String) (priority : Nat) :
    KlockClient :=
  { c with store := c.store.register_agent_priority agent_id priority }

/-- `KlockClient::acquire_lease` from `client.rs`; the wall-clock read
`now_ms()` becomes the explicit `now` argument. -/
def acquire_lease (c : KlockClient) (agent_id session_id resource_type
    resource_path predicate : String) (ttl now : Nat) :
    KlockClient × LeaseResult :=
  let r := c.store.acquire agent_id session_id
    { resource_type := parse_resource_type resource_type,
      path := resource_path }
    (parse_predicate predicate) ttl now
  ({ c with store := r.1 }, r.2)

end KlockClient

/-! A reachable in-memory store holding one `Expired` lease: agent `a`
acquires `Mutates FILE:/x` with `ttl = 5` at `now = 0`, and eviction at
`now = 10` expires it.  Used to exercise `release` on a non-`Active`
lease. -/

/-- The resource used by the expired-lease scenario. -/
def exRes : ResourceRef := ⟨.File, "/x"⟩

/-- Store after registering agent `a` with priority 100. -/
def exStore0 : InMemoryLeaseStore :=
  InMemoryLeaseStore.new.register_agent_priority "a" 100

/-- Store after `a` acquires `Mutates FILE:/x` (`ttl = 5`, `now = 0`). -/
def exStore1 : InMemoryLeaseStore :=
  (exStore0.acquire "a" "s1" exRes .Mutates 5 0).1

/-- Store after evicting at `now = 10`: the lease `lease_a_0` is
`Expired`. -/
def exStore2 : InMemoryLeaseStore := (exStore1.evict_expired 10).1

/-- The same lease table viewed through the SQLite store model. -/
def exSqStore2 : SqliteLeaseStore :=
  { rows := exStore2.leases, priorities := exStore2.priorities }

/-! The lease-id collision scenario: agent `a` is granted leases on two
different resources at the same timestamp `now = 5`, so both grants
synthesise the id `lease_a_5`. -/

/-- First collision resource, `FILE:/x`. -/
def colResX : ResourceRef := ⟨.File, "/x"⟩

/-- Second collision resource, `FILE:/y`. -/
def colResY : ResourceRef := ⟨.File, "/y"⟩

/-- In-memory store with agent `a` registered at priority 100. -/
def colMem0 : InMemoryLeaseStore := { leases := [], priorities := [("a", 100)] }

/-- In-memory store after the first grant (`Consumes FILE:/x` at
`now = 5`). -/
def colMem1 : InMemoryLeaseStore :=
  (colMem0.acquire "a" "s1" colResX .Consumes 100 5).1

/-- The lease granted first, on `FILE:/x`. -/
def colLease1 : Lease := Lease.new "lease_a_5" "a" "s1" colResX .Consumes 100 5

/-- The lease granted second, on `FILE:/y`. -/
def colLease2 : Lease := Lease.new "lease_a_5" "a" "s2" colResY .Consumes 100 5

/-! Client scenario for C10: agent `o` (priority 100) holds
`Consumes FILE:/x`; agent `b` (priority 200) then asks for the misspelled
predicate string `"MUTATE"` on the same file. -/

/-- Client with agents `o` and `b` registered. -/
def cli0 : KlockClient :=
  (KlockClient.new.register_agent "o" 100).register_agent "b" 200

/-- Client after `o` is granted `Consumes FILE:/x` at `now = 0`. -/
def cli1 : KlockClient :=
  (cli0.acquire_lease "o" "s1" "FILE" "/x" "CONSUMES" 100 0).1

/-- The update a successful heartbeat applies to the stored lease:
`last_heartbeat = now` and `expires_at = now + ttl`, all other fields
(in particular `ttl`) untouched. -/
def hbUpdate (now : Nat) (l : Lease) : Lease :=
  { l with last_heartbeat := now, expires_at := now + l.ttl }

/-- A one-lease store used to witness the heartbeat contract. -/
def hbLease : Lease := Lease.new "L1" "a" "s1" ⟨.File, "/x"⟩ .Consumes 10 0

/-- The in-memory store holding only `hbLease`. -/
def hbStore : InMemoryLeaseStore :=
  { leases := [("L1", hbLease)], priorities := [] }

/-- The lease id synthesised by both `acquire` implementations:
`"lease_{agent_id}_{now}"`. -/
def newLeaseId (agent : String) (now : Nat) : String :=
  "lease_" ++ agent ++ "_" ++ toString now

/-- The scheduler verdict computed inside `InMemoryLeaseStore::acquire`
(post-eviction active leases, store priorities). -/
def acqVerdictMem (s : InMemoryLeaseStore) (agent : String)
    (pred : Predicate) (res : ResourceRef) (now : Nat) : SchedulerVerdict :=
  WaitDieScheduler.decide agent pred res
    ((s.evict_expired now).1).get_active_leases
    ((s.evict_expired now).1).priorities

/-- The scheduler verdict computed inside `SqliteLeaseStore::acquire`. -/
def acqVerdictSq (s : SqliteLeaseStore) (agent : String)
    (pred : Predicate) (res : ResourceRef) (now : Nat) : SchedulerVerdict :=
  WaitDieScheduler.decide agent pred res
    ((s.evict_expired now).1).get_active_leases
    ((s.evict_expired now).1).priorities

/-! SQLite id-collision scenario: agent `a` (priority 100) is granted
`Consumes FILE:/x` at `now = 5`, then asks for `Consumes FILE:/y` at the
same `now = 5`; both grants synthesise the primary key `lease_a_5`. -/

/-- SQLite store with agent `a` registered at priority 100. -/
def cxSq0 : SqliteLeaseStore := { rows := [], priorities := [("a", 100)] }

/-- SQLite store after the first grant (`Consumes FILE:/x` at
`now = 5`). -/
def cxSq1 : SqliteLeaseStore :=
  (cxSq0.acquire "a" "s1" ⟨.File, "/x"⟩ .Consumes 100 5).1

/-- The second lease, on `FILE:/y`, whose insert silently fails. -/
def cxLease2 : Lease := Lease.new "lease_a_5" "a" "s2" ⟨.File, "/y"⟩
  .Consumes 100 5

/-! ### Helper lemmas on association lists -/

/-- Lookup at the head key of an association list. -/
theorem lookup_cons_self {β : Type} (a : String) (b : β)
    (l : List (String × β)) : ((a, b) :: l).lookup a = some b := by
  simp [List.lookup]

/-- Lookup past a head entry with a different key. -/
theorem lookup_cons_ne {β : Type} (a k : String) (b : β)
    (l : List (String × β)) (h : ¬(k = a)) :
    ((a, b) :: l).lookup k = l.lookup k := by
  have hb : (k == a) = false := by simp [h]
  simp [List.lookup, hb]

/-- Updating the value stored at key `k` (keeping every key) changes the
lookup at `k` by the update function. -/
theorem lookup_update_self {β : Type} (m : List (String × β)) (k : String)
    (f : β → β) :
    (m.map (fun p => if p.1 == k then (p.1, f p.2) else p)).lookup k =
      (m.lookup k).map f := by
  induction m with
  | nil => rfl
  | cons p rest ih =>
    obtain ⟨a, b⟩ := p
    simp only [List.map]
    by_cases h : a = k
    · subst h
      rw [if_pos (by simp)]
      rw [lookup_cons_self, lookup_cons_self]
      rfl
    · rw [if_neg (by simp [h])]
      rw [lookup_cons_ne a k b _ (fun hk => h hk.symm),
          lookup_cons_ne a k b _ (fun hk => h hk.symm), ih]

/-- Updating the value stored at key `k` leaves lookups at other keys
unchanged. -/
theorem lookup_update_ne {β : Type} (m : List (String × β)) (k k' : String)
    (f : β → β) (h : k' ≠ k) :
    (m.map (fun p => if p.1 == k then (p.1, f p.2) else p)).lookup k' =
      m.lookup k' := by
  induction m with
  | nil => rfl
  | cons p rest ih =>
    obtain ⟨a, b⟩ := p
    simp only [List.map]
    by_cases hp : a = k
    · subst hp
      rw [if_pos (by simp)]
      rw [lookup_cons_ne a k' (f b) _ h, lookup_cons_ne a k' b _ h, ih]
    · rw [if_neg (by simp [hp])]
      by_cases hk : k' = a
      · subst hk
        rw [lookup_cons_self, lookup_cons_self]
      · rw [lookup_cons_ne a k' b _ hk, lookup_cons_ne a k' b _ hk, ih]

/-- A keyed value-map (the shape of `evict_expired`) acts on lookups by
the mapped function. -/
theorem lookup_map_value {β : Type} (m : List (String × β)) (k : String)
    (f : β → β) :
    (m.map (fun p => (p.1, f p.2))).lookup k = (m.lookup k).map f := by
  induction m with
  | nil => rfl
  | cons p rest ih =>
    obtain ⟨a, b⟩ := p
    simp only [List.map]
    by_cases h : k = a
    · subst h
      rw [lookup_cons_self, lookup_cons_self]
      rfl
    · rw [lookup_cons_ne a k (f b) _ h, lookup_cons_ne a k b _ h, ih]

/-- A keyed value-map preserves the key list. -/
theorem keys_map_value {β : Type} (m : List (String × β)) (f : β → β) :
    (m.map (fun p => (p.1, f p.2))).map Prod.fst = m.map Prod.fst := by
  induction m with
  | nil => rfl
  | cons p rest ih => simp only [List.map, ih]

/-- Updating the value stored at key `k` preserves the key list. -/
theorem keys_update {β : Type} (m : List (String × β)) (k : String)
    (f : β → β) :
    (m.map (fun p => if p.1 == k then (p.1, f p.2) else p)).map Prod.fst =
      m.map Prod.fst := by
  induction m with
  | nil => rfl
  | cons p rest ih =>
    obtain ⟨a, b⟩ := p
    simp only [List.map]
    by_cases h : a = k
    · subst h
      rw [if_pos (by simp)]
      simp only [ih]
    · rw [if_neg (by simp [h])]
      simp only [ih]

/-! ### The Wait-Die holder loop -/

/-- The holder loop of `WaitDieScheduler::decide`: holders with no
registered priority are skipped, and the first prioritised holder decides
`Wait` or `Die`; if none is prioritised the loop falls through to
`Granted`. -/
theorem waitDieLoop_first_prioritised (reqPri : Nat)
    (priorities : List (String × Nat)) (l : List Lease) :
    (l.find? (fun h => (priorities.lookup h.agent_id).isSome) = none →
      WaitDieScheduler.waitDieLoop reqPri priorities l =
        WaitDieScheduler.grantedVerdict) ∧
    (∀ hol hp, l.find? (fun h => (priorities.lookup h.agent_id).isSome) =
        some hol →
      priorities.lookup hol.agent_id = some hp →
      WaitDieScheduler.waitDieLoop reqPri priorities l =
        if reqPri < hp then WaitDieScheduler.waitVerdict reqPri hp hol.agent_id
        else WaitDieScheduler.dieVerdict reqPri hp hol.agent_id) := by
  induction l with
  | nil => simp [WaitDieScheduler.waitDieLoop]
  | cons h rest ih =>
    cases hpri : priorities.lookup h.agent_id with
    | none =>
      have hfind : (h :: rest).find?
          (fun x => (priorities.lookup x.agent_id).isSome) =
          rest.find? (fun x => (priorities.lookup x.agent_id).isSome) := by
        simp [List.find?, hpri]
      constructor
      · intro hnone
        rw [hfind] at hnone
        simpa [WaitDieScheduler.waitDieLoop, hpri] using ih.1 hnone
      · intro hol hp hfound hhp
        rw [hfind] at hfound
        simpa [WaitDieScheduler.waitDieLoop, hpri] using ih.2 hol hp hfound hhp
    | some hp0 =>
      have hfind : (h :: rest).find?
          (fun x => (priorities.lookup x.agent_id).isSome) = some h := by
        simp [List.find?, hpri]
      constructor
      · intro hnone
        rw [hfind] at hnone
        exact absurd hnone (by simp)
      · intro hol hp hfound hhp
        rw [hfind] at hfound
        obtain rfl : hol = h := by injection hfound with he; exact he.symm
        rw [hpri] at hhp
        obtain rfl : hp = hp0 := by injection hhp with he; exact he.symm
        simp [WaitDieScheduler.waitDieLoop, hpri]

/-! ### Claim theorems -/

/-- C1: when `WaitDieScheduler.decide` sees at least one conflicting
holder and the requester has a registered priority, the verdict is decided
by the first conflicting holder with a registered priority — `Wait`
(`held_by` that holder, no retry delay) when the requester's priority is
strictly below the holder's, `Die` (`held_by` that holder, retry 1000 ms)
otherwise, ties dying; unprioritised conflicting holders are skipped, and
with no prioritised conflicting holder (or no conflicting holder at all)
the verdict is `Granted`. -/
theorem C1_wait_die_first_conflicting_holder (reqAgent : String)
    (reqPred : Predicate) (resource : ResourceRef) (active : List Lease)
    (priorities : List (String × Nat)) :
    (WaitDieScheduler.conflictingHolders reqAgent reqPred resource active = []
      → WaitDieScheduler.decide reqAgent reqPred resource active priorities =
        WaitDieScheduler.grantedVerdict) ∧
    (∀ rp, priorities.lookup reqAgent = some rp →
      ((WaitDieScheduler.conflictingHolders reqAgent reqPred resource
            active).find?
          (fun h => (priorities.lookup h.agent_id).isSome) = none →
        WaitDieScheduler.decide reqAgent reqPred resource active priorities =
          WaitDieScheduler.grantedVerdict) ∧
      (∀ hol hp,
        (WaitDieScheduler.conflictingHolders reqAgent reqPred resource
            active).find?
          (fun h => (priorities.lookup h.agent_id).isSome) = some hol →
        priorities.lookup hol.agent_id = some hp →
        WaitDieScheduler.decide reqAgent reqPred resource active priorities =
          if rp < hp then WaitDieScheduler.waitVerdict rp hp hol.agent_id
          else WaitDieScheduler.dieVerdict rp hp hol.agent_id)) := by
  constructor
  · intro hnil
    simp [WaitDieScheduler.decide, hnil]
  · intro rp hrp
    cases hc : WaitDieScheduler.conflictingHolders reqAgent reqPred resource
        active with
    | nil =>
      constructor
      · intro _; simp [WaitDieScheduler.decide, hc]
      · intro hol hp hfound _
        exact absurd hfound (by simp)
    | cons h0 rest =>
      have hdec : WaitDieScheduler.decide reqAgent reqPred resource active
          priorities =
          WaitDieScheduler.waitDieLoop rp priorities (h0 :: rest) := by
        simp [WaitDieScheduler.decide, hc, hrp]
      constructor
      · intro hnone
        rw [hdec]
        exact (waitDieLoop_first_prioritised rp priorities (h0 :: rest)).1
          hnone
      · intro hol hp hfound hhp
        rw [hdec]
        exact (waitDieLoop_first_prioritised rp priorities (h0 :: rest)).2
          hol hp hfound hhp

/-- Witness for C1 at a concrete input: one conflicting holder
(`younger`, priority 200) against requester `older` (priority 100) gives
`Wait` held by `younger`. -/
theorem C1_wait_die_first_conflicting_holder_witness :
    WaitDieScheduler.decide "older" .Mutates ⟨.File, "/t"⟩
      [Lease.new "l1" "younger" "s1" ⟨.File, "/t"⟩ .Mutates 5000 1000]
      [("older", 100), ("younger", 200)] =
      if 100 < 200 then WaitDieScheduler.waitVerdict 100 200 "younger"
      else WaitDieScheduler.dieVerdict 100 200 "younger" :=
  ((C1_wait_die_first_conflicting_holder "older" .Mutates ⟨.File, "/t"⟩
      [Lease.new "l1" "younger" "s1" ⟨.File, "/t"⟩ .Mutates 5000 1000]
      [("older", 100), ("younger", 200)]).2 100 (by decide)).2
    (Lease.new "l1" "younger" "s1" ⟨.File, "/t"⟩ .Mutates 5000 1000) 200
    (by decide) (by decide)

/-- C5: `check_pair` conflicts exactly when the matrix cell is `false`,
the matrix is compatible exactly on pairs drawn from
`{Provides, Consumes, DependsOn}` other than `(Provides, Provides)`;
hence `Consumes` and `DependsOn` are the only self-compatible predicates,
multiple `Consumes` are compatible, and `Mutates`, `Deletes` and
`Renames` conflict with every predicate in both positions. -/
theorem C5_matrix_characterisation (held req : Predicate) :
    (ConflictEngine.check_pair held req = true ↔
      (ConflictEngine.MATRIX.getD held.to_index []).getD req.to_index false
        = false) ∧
    ((ConflictEngine.MATRIX.getD held.to_index []).getD req.to_index false
        = true ↔
      ((held = .Provides ∨ held = .Consumes ∨ held = .DependsOn) ∧
       (req = .Provides ∨ req = .Consumes ∨ req = .DependsOn) ∧
       ¬(held = .Provides ∧ req = .Provides))) ∧
    (ConflictEngine.check_pair held held = false ↔
      (held = .Consumes ∨ held = .DependsOn)) ∧
    ConflictEngine.check_pair .Consumes .Consumes = false ∧
    ConflictEngine.check_pair .Mutates req = true ∧
    ConflictEngine.check_pair req .Mutates = true ∧
    ConflictEngine.check_pair .Deletes req = true ∧
    ConflictEngine.check_pair req .Deletes = true ∧
    ConflictEngine.check_pair .Renames req = true ∧
    ConflictEngine.check_pair req .Renames = true := by
  cases held <;> cases req <;> decide

/-- C6: with at least one conflicting holder and no registered priority
for the requester, `decide` fails closed: it returns `Die` with the
"Missing agent priority" reason and `retry_after_ms = 1000`, never
`Granted`. -/
theorem C6_missing_priority_fails_closed (reqAgent : String)
    (reqPred : Predicate) (resource : ResourceRef) (active : List Lease)
    (priorities : List (String × Nat))
    (h1 : WaitDieScheduler.conflictingHolders reqAgent reqPred resource active
      ≠ [])
    (h2 : priorities.lookup reqAgent = none) :
    WaitDieScheduler.decide reqAgent reqPred resource active priorities =
      WaitDieScheduler.missingPriorityVerdict ∧
    (WaitDieScheduler.decide reqAgent reqPred resource active
      priorities).status ≠ .Granted ∧
    (WaitDieScheduler.decide reqAgent reqPred resource active
        priorities).reason =
      some "Missing agent priority. Cannot ensure deadlock safety." ∧
    (WaitDieScheduler.decide reqAgent reqPred resource active
        priorities).retry_after_ms = some 1000 := by
  have hdec : WaitDieScheduler.decide reqAgent reqPred resource active
      priorities = WaitDieScheduler.missingPriorityVerdict := by
    simp [WaitDieScheduler.decide, h1, h2]
  refine ⟨hdec, ?_, ?_, ?_⟩ <;> rw [hdec] <;> simp [WaitDieScheduler.missingPriorityVerdict]

/-- Witness for C6 at a concrete input: a conflicting `Mutates` holder
and an empty priority map. -/
theorem C6_missing_priority_fails_closed_witness :
    WaitDieScheduler.decide "a" .Mutates ⟨.File, "/t"⟩
      [Lease.new "l1" "b" "s1" ⟨.File, "/t"⟩ .Mutates 5000 1000] [] =
      WaitDieScheduler.missingPriorityVerdict :=
  (C6_missing_priority_fails_closed "a" .Mutates ⟨.File, "/t"⟩
    [Lease.new "l1" "b" "s1" ⟨.File, "/t"⟩ .Mutates 5000 1000] []
    (by decide) (by decide)).1


/-- C3 (code bug): evaluated on a reachable store holding the `Expired`
lease `lease_a_0`, the in-memory `release` returns `true` and overwrites
the state to `Released`, although the claim (and the spec) require
`false` and no change for a non-`Active` lease; the SQLite `release`,
whose SQL is guarded by `state = Active`, correctly returns `false` and
leaves the store unchanged. -/
theorem C3_release_nonactive_code_eval :
    ((exStore2.leases.lookup "lease_a_0").map Lease.state = some .Expired) ∧
    (exStore2.release "lease_a_0").2 = true ∧
    (((exStore2.release "lease_a_0").1.leases.lookup "lease_a_0").map
      Lease.state = some .Released) ∧
    exSqStore2.release "lease_a_0" = (exSqStore2, false) := by
  decide

/-- C4 (code bug): on the same reachable store the in-memory `release`
performs the terminal-to-terminal transition `Expired → Released` on
`lease_a_0`, which the claimed lifecycle invariant
(`Active → {Expired, Released, Revoked}` only) forbids. -/
theorem C4_terminal_transition_code_eval :
    ((exStore2.leases.lookup "lease_a_0").map Lease.state = some .Expired) ∧
    (((exStore2.release "lease_a_0").1.leases.lookup "lease_a_0").map
      Lease.state = some .Released) ∧
    some LeaseState.Expired ≠ some LeaseState.Active := by
  decide


/-- C9: a granted in-memory lease id is exactly
`"lease_{agent_id}_{now}"`, and when the same agent is granted twice at
the same `now` (here on two different resources) the second insertion
overwrites the first map entry: the first lease vanishes from
`get_active_leases` while every lease remaining in the store is still
`Active` (none was released, expired or revoked). -/
theorem C9_lease_id_collision_overwrites :
    (∀ (s : InMemoryLeaseStore) (agent session : String) (res : ResourceRef)
      (pred : Predicate) (ttl now : Nat) (lease : Lease),
      (s.acquire agent session res pred ttl now).2 = .Success lease →
      lease.id = "lease_" ++ agent ++ "_" ++ toString now) ∧
    (colMem0.acquire "a" "s1" colResX .Consumes 100 5).2 =
      .Success colLease1 ∧
    (colMem1.acquire "a" "s2" colResY .Consumes 100 5).2 =
      .Success colLease2 ∧
    colLease1.id = colLease2.id ∧
    (colMem1.acquire "a" "s2" colResY .Consumes 100 5).1.leases =
      [("lease_a_5", colLease2)] ∧
    (colMem1.acquire "a" "s2" colResY
      .Consumes 100 5).1.get_active_leases = [colLease2] ∧
    ((colMem1.acquire "a" "s2" colResY
      .Consumes 100 5).1.get_active_leases.all
        (fun l => !(l.resource == colResX))) = true ∧
    ((colMem1.acquire "a" "s2" colResY .Consumes 100 5).1.leases.all
      (fun p => p.2.state == .Active)) = true := by
  refine ⟨?_, by decide, by decide, by decide, by decide, by decide,
    by decide, by decide⟩
  intro s agent session res pred ttl now lease h
  unfold InMemoryLeaseStore.acquire at h
  dsimp only [] at h
  split at h
  · exact absurd h (by simp)
  · exact absurd h (by simp)
  · simp only [LeaseResult.Success.injEq] at h
    rw [← h]
    rfl

/-- Witness for C9 at a concrete input: the first collision grant
returns a lease whose id is `lease_a_5`. -/
theorem C9_lease_id_collision_overwrites_witness :
    colLease1.id = "lease_" ++ "a" ++ "_" ++ toString 5 :=
  C9_lease_id_collision_overwrites.1 colMem0 "a" "s1" colResX .Consumes 100 5
    colLease1 (by decide)


/-- C10: the client never rejects its string arguments — every string
outside the six recognised predicate names (after uppercasing) parses to
`Consumes` and every unrecognised resource-type string parses to `File`;
`acquire_lease` always delegates the parsed values to the store.  In
particular the misspelled `"MUTATE"` is granted against a held `Consumes`
lease (read semantics), though the correctly spelled `"MUTATES"` would
conflict with that same holder and die. -/
theorem C10_parse_defaults_never_reject :
    (∀ s : String, rustToUpper s ≠ "PROVIDES" → rustToUpper s ≠ "CONSUMES" →
      rustToUpper s ≠ "MUTATES" → rustToUpper s ≠ "DELETES" →
      rustToUpper s ≠ "DEPENDS_ON" → rustToUpper s ≠ "RENAMES" →
      parse_predicate s = .Consumes) ∧
    (∀ s : String, rustToUpper s ≠ "FILE" → rustToUpper s ≠ "SYMBOL" →
      rustToUpper s ≠ "API_ENDPOINT" → rustToUpper s ≠ "DATABASE_TABLE" →
      rustToUpper s ≠ "CONFIG_KEY" → parse_resource_type s = .File) ∧
    parse_predicate "MUTATE" = .Consumes ∧
    (∀ (c : KlockClient) (agent session rt rp ps : String) (ttl now : Nat),
      c.acquire_lease agent session rt rp ps ttl now =
        ({ c with store := (c.store.acquire agent session
            ⟨parse_resource_type rt, rp⟩ (parse_predicate ps) ttl now).1 },
          (c.store.acquire agent session ⟨parse_resource_type rt, rp⟩
            (parse_predicate ps) ttl now).2)) ∧
    (cli1.acquire_lease "b" "s2" "FILE" "/x" "MUTATE" 100 7).2 =
      .Success (Lease.new "lease_b_7" "b" "s2" ⟨.File, "/x"⟩ .Consumes
        100 7) ∧
    (cli1.acquire_lease "b" "s2" "FILE" "/x" "MUTATES" 100 7).2 =
      .Failure .Die none (some 1000) ∧
    ConflictEngine.check_pair .Consumes .Mutates = true := by
  refine ⟨?_, ?_, by decide, ?_, by decide, by decide, by decide⟩
  · intro s h1 h2 h3 h4 h5 h6
    simp [parse_predicate, h1, h2, h3, h4, h5, h6]
  · intro s h1 h2 h3 h4 h5
    simp [parse_resource_type, h1, h2, h3, h4, h5]
  · intro c agent session rt rp ps ttl now
    rfl

/-- Witness for C10 at a concrete input: the misspelled predicate
`"MUTATE"` parses to `Consumes`. -/
theorem C10_parse_defaults_never_reject_witness :
    parse_predicate "MUTATE" = .Consumes :=
  C10_parse_defaults_never_reject.1 "MUTATE" (by decide) (by decide)
    (by decide) (by decide) (by decide) (by decide)


/-- In-memory heartbeat on an `Active` lease: returns `true`, rewrites
the stored lease by `hbUpdate`, and leaves every other key and the
priority map unchanged. -/
theorem mem_heartbeat_active (s : InMemoryLeaseStore) (id : String)
    (now : Nat) (l : Lease) (hl : s.leases.lookup id = some l)
    (hst : l.state = .Active) :
    (s.heartbeat id now).2 = true ∧
    (s.heartbeat id now).1.leases.lookup id = some (hbUpdate now l) ∧
    (∀ k, k ≠ id →
      (s.heartbeat id now).1.leases.lookup k = s.leases.lookup k) ∧
    (s.heartbeat id now).1.priorities = s.priorities := by
  unfold InMemoryLeaseStore.heartbeat
  rw [hl]
  dsimp only
  rw [if_pos (by simp [hst])]
  refine ⟨rfl, ?_, ?_, rfl⟩
  · rw [lookup_update_self s.leases id
      (fun x => { x with last_heartbeat := now, expires_at := now + x.ttl }),
      hl]
    rfl
  · intro k hk
    exact lookup_update_ne s.leases id k
      (fun x => { x with last_heartbeat := now, expires_at := now + x.ttl })
      hk

/-- In-memory heartbeat succeeds exactly on an existing `Active` lease. -/
theorem mem_heartbeat_true_iff (s : InMemoryLeaseStore) (id : String)
    (now : Nat) :
    (s.heartbeat id now).2 = true ↔
      ∃ l, s.leases.lookup id = some l ∧ l.state = .Active := by
  unfold InMemoryLeaseStore.heartbeat
  cases hlk : s.leases.lookup id with
  | none => simp
  | some l =>
    dsimp only
    by_cases hst : l.state = .Active
    · rw [if_pos (by simp [hst])]
      simp [hst]
    · rw [if_neg (by simp [hst])]
      simp [hst]

/-- A failing in-memory heartbeat leaves the store untouched. -/
theorem mem_heartbeat_false_frame (s : InMemoryLeaseStore) (id : String)
    (now : Nat) (h : (s.heartbeat id now).2 = false) :
    (s.heartbeat id now).1 = s := by
  unfold InMemoryLeaseStore.heartbeat at h ⊢
  cases hlk : s.leases.lookup id with
  | none => rfl
  | some l =>
    rw [hlk] at h
    dsimp only at h ⊢
    by_cases hst : l.state = .Active
    · rw [if_pos (by simp [hst])] at h
      exact absurd h (by simp)
    · rw [if_neg (by simp [hst])]

/-- SQLite heartbeat on an `Active` row: returns `true`, rewrites the
stored lease by `hbUpdate`, and leaves every other key and the priority
map unchanged. -/
theorem sq_heartbeat_active (s : SqliteLeaseStore) (id : String)
    (now : Nat) (l : Lease) (hl : s.rows.lookup id = some l)
    (hst : l.state = .Active) :
    (s.heartbeat id now).2 = true ∧
    (s.heartbeat id now).1.rows.lookup id = some (hbUpdate now l) ∧
    (∀ k, k ≠ id →
      (s.heartbeat id now).1.rows.lookup k = s.rows.lookup k) ∧
    (s.heartbeat id now).1.priorities = s.priorities := by
  unfold SqliteLeaseStore.heartbeat
  rw [hl]
  dsimp only
  rw [if_pos (by simp [hst])]
  refine ⟨rfl, ?_, ?_, rfl⟩
  · rw [lookup_update_self s.rows id
      (fun x => { x with last_heartbeat := now, expires_at := now + l.ttl }),
      hl]
    rfl
  · intro k hk
    exact lookup_update_ne s.rows id k
      (fun x => { x with last_heartbeat := now, expires_at := now + l.ttl })
      hk

/-- SQLite heartbeat succeeds exactly on an existing `Active` row. -/
theorem sq_heartbeat_true_iff (s : SqliteLeaseStore) (id : String)
    (now : Nat) :
    (s.heartbeat id now).2 = true ↔
      ∃ l, s.rows.lookup id = some l ∧ l.state = .Active := by
  unfold SqliteLeaseStore.heartbeat
  cases hlk : s.rows.lookup id with
  | none => simp
  | some l =>
    dsimp only
    by_cases hst : l.state = .Active
    · rw [if_pos (by simp [hst])]
      simp [hst]
    · rw [if_neg (by simp [hst])]
      simp [hst]

/-- A failing SQLite heartbeat leaves the store untouched. -/
theorem sq_heartbeat_false_frame (s : SqliteLeaseStore) (id : String)
    (now : Nat) (h : (s.heartbeat id now).2 = false) :
    (s.heartbeat id now).1 = s := by
  unfold SqliteLeaseStore.heartbeat at h ⊢
  cases hlk : s.rows.lookup id with
  | none => rfl
  | some l =>
    rw [hlk] at h
    dsimp only at h ⊢
    by_cases hst : l.state = .Active
    · rw [if_pos (by simp [hst])] at h
      exact absurd h (by simp)
    · rw [if_neg (by simp [hst])]

/-- C8: on both stores `heartbeat(id, now)` returns `true` exactly when
an `Active` lease with that id exists, in which case the stored lease
gets `last_heartbeat = now` and `expires_at = now + ttl` with `ttl`
unchanged (other leases and a failing call untouched); repeating the
heartbeat at the same `now` leaves `expires_at = now + ttl` exactly, and
a later heartbeat strictly increases `expires_at`. -/
theorem C8_heartbeat_contract :
    (∀ (s : InMemoryLeaseStore) (id : String) (now : Nat),
      ((s.heartbeat id now).2 = true ↔
        ∃ l, s.leases.lookup id = some l ∧ l.state = .Active) ∧
      ((s.heartbeat id now).2 = false → (s.heartbeat id now).1 = s) ∧
      (∀ l, s.leases.lookup id = some l → l.state = .Active →
        (s.heartbeat id now).1.leases.lookup id = some (hbUpdate now l) ∧
        (hbUpdate now l).last_heartbeat = now ∧
        (hbUpdate now l).expires_at = now + l.ttl ∧
        (hbUpdate now l).ttl = l.ttl ∧
        (∀ k, k ≠ id →
          (s.heartbeat id now).1.leases.lookup k = s.leases.lookup k) ∧
        ((s.heartbeat id now).1.heartbeat id now).1.leases.lookup id =
          some (hbUpdate now l)) ∧
      (∀ l t2, s.leases.lookup id = some l → l.state = .Active → now < t2 →
        ((s.heartbeat id now).1.heartbeat id t2).1.leases.lookup id =
          some (hbUpdate t2 l) ∧
        (hbUpdate now l).expires_at < (hbUpdate t2 l).expires_at)) ∧
    (∀ (s : SqliteLeaseStore) (id : String) (now : Nat),
      ((s.heartbeat id now).2 = true ↔
        ∃ l, s.rows.lookup id = some l ∧ l.state = .Active) ∧
      ((s.heartbeat id now).2 = false → (s.heartbeat id now).1 = s) ∧
      (∀ l, s.rows.lookup id = some l → l.state = .Active →
        (s.heartbeat id now).1.rows.lookup id = some (hbUpdate now l) ∧
        (hbUpdate now l).last_heartbeat = now ∧
        (hbUpdate now l).expires_at = now + l.ttl ∧
        (hbUpdate now l).ttl = l.ttl ∧
        (∀ k, k ≠ id →
          (s.heartbeat id now).1.rows.lookup k = s.rows.lookup k) ∧
        ((s.heartbeat id now).1.heartbeat id now).1.rows.lookup id =
          some (hbUpdate now l)) ∧
      (∀ l t2, s.rows.lookup id = some l → l.state = .Active → now < t2 →
        ((s.heartbeat id now).1.heartbeat id t2).1.rows.lookup id =
          some (hbUpdate t2 l) ∧
        (hbUpdate now l).expires_at < (hbUpdate t2 l).expires_at)) := by
  constructor
  · intro s id now
    refine ⟨mem_heartbeat_true_iff s id now,
      mem_heartbeat_false_frame s id now, ?_, ?_⟩
    · intro l hl hst
      obtain ⟨_, h2, h3, _⟩ := mem_heartbeat_active s id now l hl hst
      refine ⟨h2, rfl, rfl, rfl, h3, ?_⟩
      exact (mem_heartbeat_active (s.heartbeat id now).1 id now
        (hbUpdate now l) h2 hst).2.1
    · intro l t2 hl hst hlt
      obtain ⟨_, h2, _, _⟩ := mem_heartbeat_active s id now l hl hst
      refine ⟨(mem_heartbeat_active (s.heartbeat id now).1 id t2
        (hbUpdate now l) h2 hst).2.1, ?_⟩
      show now + l.ttl < t2 + l.ttl
      exact Nat.add_lt_add_right hlt l.ttl
  · intro s id now
    refine ⟨sq_heartbeat_true_iff s id now,
      sq_heartbeat_false_frame s id now, ?_, ?_⟩
    · intro l hl hst
      obtain ⟨_, h2, h3, _⟩ := sq_heartbeat_active s id now l hl hst
      refine ⟨h2, rfl, rfl, rfl, h3, ?_⟩
      exact (sq_heartbeat_active (s.heartbeat id now).1 id now
        (hbUpdate now l) h2 hst).2.1
    · intro l t2 hl hst hlt
      obtain ⟨_, h2, _, _⟩ := sq_heartbeat_active s id now l hl hst
      refine ⟨(sq_heartbeat_active (s.heartbeat id now).1 id t2
        (hbUpdate now l) h2 hst).2.1, ?_⟩
      show now + l.ttl < t2 + l.ttl
      exact Nat.add_lt_add_right hlt l.ttl


/-- Witness for C8 at a concrete input: heart-beating the only lease at
`now = 50` re-times it to `expires_at = 60`. -/
theorem C8_heartbeat_contract_witness :
    (hbStore.heartbeat "L1" 50).1.leases.lookup "L1" =
      some (hbUpdate 50 hbLease) :=
  ((C8_heartbeat_contract.1 hbStore "L1" 50).2.2.1 hbLease (by decide)
    (by decide)).1

/-- One loop iteration of `KlockKernel::execute` agrees with the
claim-worded reduction step on any accumulator satisfying the reachable
invariant (no retry delay recorded unless the running status is `Die`),
and the iteration preserves that invariant. -/
theorem step_claimStep_eq (state : StateSnapshot) (agent : String)
    (intent : SPOTriple) (acc : KlockKernel.ExecAcc)
    (hinv : acc.worst ≠ .Die → acc.retry = none) :
    KlockKernel.step state agent acc intent =
      KlockKernel.claimStep state agent acc intent ∧
    ((KlockKernel.step state agent acc intent).worst ≠ .Die →
      (KlockKernel.step state agent acc intent).retry = none) := by
  obtain ⟨cs, w, r, hb, rt⟩ := acc
  have hrt : w ≠ .Die → rt = none := hinv
  cases hc : ConflictEngine.check intent state.active_intents <;>
    cases hs : (KlockKernel.intentVerdict state agent intent).status <;>
    cases w <;>
    simp_all [KlockKernel.step, KlockKernel.claimStep]

/-- The fold of `KlockKernel::execute` agrees with the claim-worded fold
from any accumulator satisfying the reachable invariant. -/
theorem foldl_step_claim (state : StateSnapshot) (agent : String)
    (intents : List SPOTriple) :
    ∀ acc : KlockKernel.ExecAcc, (acc.worst ≠ .Die → acc.retry = none) →
      intents.foldl (KlockKernel.step state agent) acc =
        intents.foldl (KlockKernel.claimStep state agent) acc := by
  induction intents with
  | nil => intro acc _; rfl
  | cons i rest ih =>
    intro acc hinv
    obtain ⟨heq, hinv2⟩ := step_claimStep_eq state agent i acc hinv
    simp only [List.foldl_cons]
    rw [← heq]
    exact ih (KlockKernel.step state agent acc i) hinv2

/-- C2: `KlockKernel.execute` is exactly the claim-worded reduction —
`Die` strictly dominates `Wait`, which dominates `Granted`; a `Die`
overwrites reason, held_by and retry from its scheduler call; a `Wait`
observed while the status is not `Die` overwrites reason and held_by
leaving retry unset; with no `Wait` or `Die` the status stays `Granted`;
and the conflicts list collects, in intent order, every conflict-engine
reason plus a lease-conflict entry for each intent with no intent-level
conflict but a non-`Granted` scheduler verdict. -/
theorem C2_kernel_worst_wins_reduction (state : StateSnapshot)
    (manifest : IntentManifest) :
    KlockKernel.execute state manifest =
      KlockKernel.claimExecute state manifest := by
  unfold KlockKernel.execute KlockKernel.claimExecute
  rw [foldl_step_claim state manifest.agent_id manifest.intents
    KlockKernel.initAcc (fun _ => rfl)]

/-- Appending a fresh key to an association list makes it found. -/
theorem lookup_append_new {β : Type} (m : List (String × β)) (k : String)
    (v : β) (h : m.lookup k = none) : (m ++ [(k, v)]).lookup k = some v := by
  induction m with
  | nil => exact lookup_cons_self k v []
  | cons p rest ih =>
    obtain ⟨a, b⟩ := p
    by_cases hk : k = a
    · subst hk
      rw [lookup_cons_self] at h
      exact absurd h (by simp)
    · rw [lookup_cons_ne a k b rest hk] at h
      rw [List.cons_append, lookup_cons_ne a k b _ hk]
      exact ih h

/-- Replacing the entries stored under a present key makes the new value
found. -/
theorem lookup_replace_all {β : Type} (m : List (String × β)) (k : String)
    (v : β) (h : (m.lookup k).isSome) :
    (m.map (fun p => if p.1 == k then (k, v) else p)).lookup k = some v := by
  induction m with
  | nil => simp [List.lookup] at h
  | cons p rest ih =>
    obtain ⟨a, b⟩ := p
    simp only [List.map]
    by_cases hk : a = k
    · subst hk
      rw [if_pos (by simp)]
      exact lookup_cons_self a v _
    · rw [if_neg (by simp [hk])]
      rw [lookup_cons_ne a k b _ (fun hh => hk hh.symm)]
      rw [lookup_cons_ne a k b _ (fun hh => hk hh.symm)] at h
      exact ih h

/-- `assocInsert` (the model of `HashMap::insert`) makes the inserted
value found under its key. -/
theorem lookup_assocInsert_self {β : Type} (m : List (String × β))
    (k : String) (v : β) : (assocInsert m k v).lookup k = some v := by
  unfold assocInsert
  by_cases h : (m.lookup k).isSome
  · rw [if_pos h]
    exact lookup_replace_all m k v h
  · rw [if_neg h]
    refine lookup_append_new m k v ?_
    cases hlk : m.lookup k with
    | none => rfl
    | some b => rw [hlk] at h; exact absurd (by simp) h

/-- Eviction never changes a lease's expiry timestamp. -/
theorem expireLease_expires_at (now : Nat) (l : Lease) :
    (expireLease now l).expires_at = l.expires_at := by
  unfold expireLease
  split <;> rfl

/-- A lease still `Active` after eviction at `now` is not past its
expiry. -/
theorem expireLease_active_not_expired (now : Nat) (l : Lease)
    (h : (expireLease now l).state = .Active) :
    ¬ (expireLease now l).expires_at < now := by
  rw [expireLease_expires_at]
  unfold expireLease at h
  by_cases hc : (l.state == LeaseState.Active && decide (l.expires_at < now))
      = true
  · rw [if_pos hc] at h
    exact absurd h (by simp)
  · rw [if_neg hc] at h
    intro habs
    exact hc (by simp [h, habs])

/-- After in-memory eviction at `now`, no remaining active lease has
`expires_at < now` — a just-expired holder cannot block a request. -/
theorem evicted_active_not_expired_mem (s : InMemoryLeaseStore) (now : Nat) :
    ∀ l ∈ ((s.evict_expired now).1).get_active_leases,
      ¬ l.expires_at < now := by
  intro l hl
  unfold InMemoryLeaseStore.get_active_leases InMemoryLeaseStore.evict_expired
    at hl
  simp only [List.mem_filter, List.mem_map] at hl
  obtain ⟨⟨p, ⟨q, hq, rfl⟩, rfl⟩, hact⟩ := hl
  exact expireLease_active_not_expired now q.2 (by simpa using hact)

/-- After SQLite eviction at `now`, no remaining active lease has
`expires_at < now`. -/
theorem evicted_active_not_expired_sq (s : SqliteLeaseStore) (now : Nat) :
    ∀ l ∈ ((s.evict_expired now).1).get_active_leases,
      ¬ l.expires_at < now := by
  intro l hl
  unfold SqliteLeaseStore.get_active_leases SqliteLeaseStore.evict_expired
    at hl
  simp only [List.mem_filter, List.mem_map] at hl
  obtain ⟨⟨p, ⟨q, hq, rfl⟩, rfl⟩, hact⟩ := hl
  exact expireLease_active_not_expired now q.2 (by simpa using hact)

/-- In-memory acquire, `Granted` branch: the new lease is inserted and
returned. -/
theorem mem_acquire_granted (s : InMemoryLeaseStore) (agent session : String)
    (res : ResourceRef) (pred : Predicate) (ttl now : Nat)
    (h : (acqVerdictMem s agent pred res now).status = .Granted) :
    s.acquire agent session res pred ttl now =
      ({ (s.evict_expired now).1 with
          leases := assocInsert ((s.evict_expired now).1).leases
            (newLeaseId agent now)
            (Lease.new (newLeaseId agent now) agent session res pred ttl
              now) },
        .Success (Lease.new (newLeaseId agent now) agent session res pred ttl
          now)) := by
  unfold acqVerdictMem at h
  unfold InMemoryLeaseStore.acquire
  dsimp only
  rw [h]
  rfl

/-- In-memory acquire, `Wait` branch: failure with no wait hint and no
insertion. -/
theorem mem_acquire_wait (s : InMemoryLeaseStore) (agent session : String)
    (res : ResourceRef) (pred : Predicate) (ttl now : Nat)
    (h : (acqVerdictMem s agent pred res now).status = .Wait) :
    s.acquire agent session res pred ttl now =
      ((s.evict_expired now).1, .Failure .Wait none none) := by
  unfold acqVerdictMem at h
  unfold InMemoryLeaseStore.acquire
  dsimp only
  rw [h]

/-- In-memory acquire, `Die` branch: failure carrying the verdict's
retry delay and no insertion. -/
theorem mem_acquire_die (s : InMemoryLeaseStore) (agent session : String)
    (res : ResourceRef) (pred : Predicate) (ttl now : Nat)
    (h : (acqVerdictMem s agent pred res now).status = .Die) :
    s.acquire agent session res pred ttl now =
      ((s.evict_expired now).1,
        .Failure .Die none
          (acqVerdictMem s agent pred res now).retry_after_ms) := by
  unfold acqVerdictMem at h ⊢
  unfold InMemoryLeaseStore.acquire
  dsimp only
  rw [h]

/-- SQLite acquire, `Granted` with a fresh id: the row is appended. -/
theorem sq_acquire_granted_fresh (s : SqliteLeaseStore)
    (agent session : String) (res : ResourceRef) (pred : Predicate)
    (ttl now : Nat) (h : (acqVerdictSq s agent pred res now).status = .Granted)
    (hfree : ((s.evict_expired now).1).rows.lookup (newLeaseId agent now)
      = none) :
    s.acquire agent session res pred ttl now =
      ({ (s.evict_expired now).1 with
          rows := ((s.evict_expired now).1).rows ++
            [(newLeaseId agent now,
              Lease.new (newLeaseId agent now) agent session res pred ttl
                now)] },
        .Success (Lease.new (newLeaseId agent now) agent session res pred ttl
          now)) := by
  unfold acqVerdictSq at h
  unfold SqliteLeaseStore.acquire
  dsimp only
  rw [h]
  dsimp only
  rw [if_neg (by rw [newLeaseId] at hfree; simp [hfree])]
  rfl

/-- SQLite acquire, `Granted` on a colliding id: `Success` is returned
but the `INSERT` fails silently and the table is left unchanged. -/
theorem sq_acquire_granted_collision (s : SqliteLeaseStore)
    (agent session : String) (res : ResourceRef) (pred : Predicate)
    (ttl now : Nat) (h : (acqVerdictSq s agent pred res now).status = .Granted)
    (htaken : (((s.evict_expired now).1).rows.lookup
      (newLeaseId agent now)).isSome) :
    s.acquire agent session res pred ttl now =
      ((s.evict_expired now).1,
        .Success (Lease.new (newLeaseId agent now) agent session res pred ttl
          now)) := by
  unfold acqVerdictSq at h
  unfold SqliteLeaseStore.acquire
  dsimp only
  rw [h]
  dsimp only
  rw [if_pos (by rw [newLeaseId] at htaken; simpa using htaken)]
  rfl

/-- SQLite acquire, `Wait` branch. -/
theorem sq_acquire_wait (s : SqliteLeaseStore) (agent session : String)
    (res : ResourceRef) (pred : Predicate) (ttl now : Nat)
    (h : (acqVerdictSq s agent pred res now).status = .Wait) :
    s.acquire agent session res pred ttl now =
      ((s.evict_expired now).1, .Failure .Wait none none) := by
  unfold acqVerdictSq at h
  unfold SqliteLeaseStore.acquire
  dsimp only
  rw [h]

/-- SQLite acquire, `Die` branch. -/
theorem sq_acquire_die (s : SqliteLeaseStore) (agent session : String)
    (res : ResourceRef) (pred : Predicate) (ttl now : Nat)
    (h : (acqVerdictSq s agent pred res now).status = .Die) :
    s.acquire agent session res pred ttl now =
      ((s.evict_expired now).1,
        .Failure .Die none
          (acqVerdictSq s agent pred res now).retry_after_ms) := by
  unfold acqVerdictSq at h ⊢
  unfold SqliteLeaseStore.acquire
  dsimp only
  rw [h]

/-- C7 counterexample: in the SQLite store, when the synthesised id
`lease_a_5` collides with an existing row, the verdict is `Granted` and
`Success` is returned with the new lease, yet the store is unchanged —
no lease is inserted (no active lease on `FILE:/y` exists afterwards),
contradicting the claim's "Granted yields Success with a newly inserted
lease". -/
theorem C7_acquire_translation_counterexample :
    (cxSq1.acquire "a" "s2" ⟨.File, "/y"⟩ .Consumes 100 5) =
      (cxSq1, .Success cxLease2) ∧
    cxSq1.rows.lookup "lease_a_5" ≠ some cxLease2 ∧
    (((cxSq1.acquire "a" "s2" ⟨.File, "/y"⟩ .Consumes
        100 5).1).get_active_leases.all
      (fun l => !(l.resource == (⟨.File, "/y"⟩ : ResourceRef)))) = true := by
  decide

/-- C7 (amended): on both stores, `acquire` first expires every `Active`
lease with `expires_at < now` (no surviving active lease is past expiry,
and no key is added or removed by eviction), then translates the
scheduler verdict computed over the post-eviction active leases:
`Granted` returns `Success` with a lease whose state is `Active`,
`acquired_at = now`, `expires_at = now + ttl`, `last_heartbeat = now`;
`Wait` gives `Failure`/`Wait` with `wait_time = none`; `Die` gives
`Failure`/`Die` carrying the verdict's `retry_after_ms`; no lease is
inserted on either failure.  In the in-memory store the granted lease is
always found under its id afterwards; in the SQLite store it is inserted
only when no row with the synthesised id exists — on a collision
`Success` is still returned but the table is left unchanged. -/
theorem C7_acquire_translation :
    (∀ (s : InMemoryLeaseStore) (agent session : String) (res : ResourceRef)
      (pred : Predicate) (ttl now : Nat),
      (∀ l ∈ ((s.evict_expired now).1).get_active_leases,
        ¬ l.expires_at < now) ∧
      ((s.evict_expired now).1).leases.map Prod.fst =
        s.leases.map Prod.fst ∧
      ((s.evict_expired now).1).priorities = s.priorities ∧
      ((acqVerdictMem s agent pred res now).status = .Granted →
        s.acquire agent session res pred ttl now =
          ({ (s.evict_expired now).1 with
              leases := assocInsert ((s.evict_expired now).1).leases
                (newLeaseId agent now)
                (Lease.new (newLeaseId agent now) agent session res pred ttl
                  now) },
            .Success (Lease.new (newLeaseId agent now) agent session res pred
              ttl now)) ∧
        (Lease.new (newLeaseId agent now) agent session res pred ttl
          now).state = .Active ∧
        (Lease.new (newLeaseId agent now) agent session res pred ttl
          now).acquired_at = now ∧
        (Lease.new (newLeaseId agent now) agent session res pred ttl
          now).expires_at = now + ttl ∧
        (Lease.new (newLeaseId agent now) agent session res pred ttl
          now).last_heartbeat = now ∧
        (s.acquire agent session res pred ttl now).1.leases.lookup
          (newLeaseId agent now) =
          some (Lease.new (newLeaseId agent now) agent session res pred ttl
            now)) ∧
      ((acqVerdictMem s agent pred res now).status = .Wait →
        s.acquire agent session res pred ttl now =
          ((s.evict_expired now).1, .Failure .Wait none none)) ∧
      ((acqVerdictMem s agent pred res now).status = .Die →
        s.acquire agent session res pred ttl now =
          ((s.evict_expired now).1,
            .Failure .Die none
              (acqVerdictMem s agent pred res now).retry_after_ms))) ∧
    (∀ (s : SqliteLeaseStore) (agent session : String) (res : ResourceRef)
      (pred : Predicate) (ttl now : Nat),
      (∀ l ∈ ((s.evict_expired now).1).get_active_leases,
        ¬ l.expires_at < now) ∧
      ((s.evict_expired now).1).rows.map Prod.fst = s.rows.map Prod.fst ∧
      ((s.evict_expired now).1).priorities = s.priorities ∧
      ((acqVerdictSq s agent pred res now).status = .Granted →
        ((s.evict_expired now).1).rows.lookup (newLeaseId agent now) = none →
        s.acquire agent session res pred ttl now =
          ({ (s.evict_expired now).1 with
              rows := ((s.evict_expired now).1).rows ++
                [(newLeaseId agent now,
                  Lease.new (newLeaseId agent now) agent session res pred ttl
                    now)] },
            .Success (Lease.new (newLeaseId agent now) agent session res pred
              ttl now)) ∧
        (s.acquire agent session res pred ttl now).1.rows.lookup
          (newLeaseId agent now) =
          some (Lease.new (newLeaseId agent now) agent session res pred ttl
            now)) ∧
      ((acqVerdictSq s agent pred res now).status = .Granted →
        (((s.evict_expired now).1).rows.lookup
          (newLeaseId agent now)).isSome →
        s.acquire agent session res pred ttl now =
          ((s.evict_expired now).1,
            .Success (Lease.new (newLeaseId agent now) agent session res pred
              ttl now))) ∧
      ((acqVerdictSq s agent pred res now).status = .Wait →
        s.acquire agent session res pred ttl now =
          ((s.evict_expired now).1, .Failure .Wait none none)) ∧
      ((acqVerdictSq s agent pred res now).status = .Die →
        s.acquire agent session res pred ttl now =
          ((s.evict_expired now).1,
            .Failure .Die none
              (acqVerdictSq s agent pred res now).retry_after_ms))) := by
  constructor
  · intro s agent session res pred ttl now
    refine ⟨evicted_active_not_expired_mem s now,
      keys_map_value s.leases (expireLease now), rfl, ?_, ?_, ?_⟩
    · intro h
      have he := mem_acquire_granted s agent session res pred ttl now h
      refine ⟨he, rfl, rfl, rfl, rfl, ?_⟩
      rw [he]
      exact lookup_assocInsert_self _ _ _
    · exact mem_acquire_wait s agent session res pred ttl now
    · exact mem_acquire_die s agent session res pred ttl now
  · intro s agent session res pred ttl now
    refine ⟨evicted_active_not_expired_sq s now,
      keys_map_value s.rows (expireLease now), rfl, ?_, ?_, ?_, ?_⟩
    · intro h hfree
      have he := sq_acquire_granted_fresh s agent session res pred ttl now h
        hfree
      refine ⟨he, ?_⟩
      rw [he]
      exact lookup_append_new _ _ _ hfree
    · exact sq_acquire_granted_collision s agent session res pred ttl now
    · exact sq_acquire_wait s agent session res pred ttl now
    · exact sq_acquire_die s agent session res pred ttl now

/-- Witness for the amended C7 at a concrete input: acquiring on an
empty in-memory store is granted and inserts the synthesised lease. -/
theorem C7_acquire_translation_witness :
    InMemoryLeaseStore.new.acquire "a" "s1" ⟨.File, "/w"⟩ .Consumes 10 3 =
      ({ (InMemoryLeaseStore.new.evict_expired 3).1 with
          leases := assocInsert
            ((InMemoryLeaseStore.new.evict_expired 3).1).leases
            (newLeaseId "a" 3)
            (Lease.new (newLeaseId "a" 3) "a" "s1" ⟨.File, "/w"⟩ .Consumes
              10 3) },
        .Success (Lease.new (newLeaseId "a" 3) "a" "s1" ⟨.File, "/w"⟩
          .Consumes 10 3)) :=
  ((C7_acquire_translation.1 InMemoryLeaseStore.new "a" "s1"
    ⟨.File, "/w"⟩ .Consumes 10 3).2.2.2.1 (by decide)).1

end Klock
